import Mathlib

set_option maxRecDepth 10000

/-!
Shallow embedding of the IDT 8T49N24x clock-generator driver (clk-idt24x.c):
the divider calculator, the masked register-write helper, the output
enable/disable path and the register-update sequence, together with proofs of
the specified properties.  Machine integers of the C source (u8/u16/u32/u64)
are modelled as natural numbers, reduced modulo the relevant power of two at
exactly the points where the C code stores into a fixed-width variable.
-/

namespace ClkIdt24x

/-- Number of values of a u8; stores into u8 variables are reduced mod this. -/
def U8 : Nat := 2 ^ 8

/-- Number of values of a u16. -/
def U16 : Nat := 2 ^ 16

/-- Number of values of a u32. -/
def U32 : Nat := 2 ^ 32

/-- Number of values of a u64. -/
def U64 : Nat := 2 ^ 64

/-- Linux EINVAL error number; the driver returns the negated value. -/
def EINVAL : Int := 22

-- Register offsets and field masks from the top of clk-idt24x.c.
def IDT24x_REG_DBL_DIS : Nat := 0x6C
def IDT24x_REG_DBL_DIS_MASK : Nat := 0x01
def IDT24x_REG_DSM_INT_8 : Nat := 0x25
def IDT24x_REG_DSM_INT_8_MASK : Nat := 0x01
def IDT24x_REG_DSM_INT_7_0 : Nat := 0x26
def IDT24x_REG_DSMFRAC_20_16 : Nat := 0x28
def IDT24x_REG_DSMFRAC_20_16_MASK : Nat := 0x1F
def IDT24x_REG_DSMFRAC_15_8 : Nat := 0x29
def IDT24x_REG_DSMFRAC_7_0 : Nat := 0x2A
def IDT24x_REG_OUTEN : Nat := 0x39
def IDT24x_REG_Q_DIS : Nat := 0x6F
def IDT24x_REG_OUTEN0_MASK : Nat := 0x01
def IDT24x_REG_Q0_DIS_MASK : Nat := 0x01
def IDT24x_REG_NS1_Q0 : Nat := 0x3F
def IDT24x_REG_NS1_Q0_MASK : Nat := 0x03
def IDT24x_REG_NS2_Q0_15_8 : Nat := 0x40
def IDT24x_REG_NS2_Q0_7_0 : Nat := 0x41
def IDT24x_REG_OUTEN1_MASK : Nat := 0x02
def IDT24x_REG_Q1_DIS_MASK : Nat := 0x02
def IDT24x_REG_N_Q1_17_16 : Nat := 0x42
def IDT24x_REG_N_Q1_17_16_MASK : Nat := 0x03
def IDT24x_REG_N_Q1_15_8 : Nat := 0x43
def IDT24x_REG_N_Q1_7_0 : Nat := 0x44
def IDT24x_REG_NFRAC_Q1_27_24 : Nat := 0x57
def IDT24x_REG_NFRAC_Q1_27_24_MASK : Nat := 0x0F
def IDT24x_REG_NFRAC_Q1_23_16 : Nat := 0x58
def IDT24x_REG_NFRAC_Q1_15_8 : Nat := 0x59
def IDT24x_REG_NFRAC_Q1_7_0 : Nat := 0x5A
def IDT24x_REG_OUTEN2_MASK : Nat := 0x04
def IDT24x_REG_Q2_DIS_MASK : Nat := 0x04
def IDT24x_REG_N_Q2_17_16 : Nat := 0x45
def IDT24x_REG_N_Q2_17_16_MASK : Nat := 0x03
def IDT24x_REG_N_Q2_15_8 : Nat := 0x46
def IDT24x_REG_N_Q2_7_0 : Nat := 0x47
def IDT24x_REG_NFRAC_Q2_27_24 : Nat := 0x5B
def IDT24x_REG_NFRAC_Q2_27_24_MASK : Nat := 0x0F
def IDT24x_REG_NFRAC_Q2_23_16 : Nat := 0x5C
def IDT24x_REG_NFRAC_Q2_15_8 : Nat := 0x5D
def IDT24x_REG_NFRAC_Q2_7_0 : Nat := 0x5E
def IDT24x_REG_OUTEN3_MASK : Nat := 0x08
def IDT24x_REG_Q3_DIS_MASK : Nat := 0x08
def IDT24x_REG_N_Q3_17_16 : Nat := 0x48
def IDT24x_REG_N_Q3_17_16_MASK : Nat := 0x03
def IDT24x_REG_N_Q3_15_8 : Nat := 0x49
def IDT24x_REG_N_Q3_7_0 : Nat := 0x4A
def IDT24x_REG_NFRAC_Q3_27_24 : Nat := 0x5F
def IDT24x_REG_NFRAC_Q3_27_24_MASK : Nat := 0x0F
def IDT24x_REG_NFRAC_Q3_23_16 : Nat := 0x60
def IDT24x_REG_NFRAC_Q3_15_8 : Nat := 0x61
def IDT24x_REG_NFRAC_Q3_7_0 : Nat := 0x62

def IDT24x_MIN_FREQ : Nat := 1000000
def IDT24x_MAX_FREQ : Nat := 300000000
def IDT24x_VCO_MIN : Nat := 2999997000
def IDT24x_VCO_MAX : Nat := 4000004000
def IDT24x_VCO_OPT : Nat := 3500000000
def IDT24x_MIN_INT_DIVIDER : Nat := 6

/-- Model of the C helper bits_to_shift: counts the zero bits on the right of
a 32-bit mask with a branchless isolate-lowest-bit sequence.  The C argument
is an unsigned int, so the input is first reduced mod 2^32; the expression
~mask + 1 is computed with 32-bit complement and wraparound. -/
def bits_to_shift (m : Nat) : Nat :=
  let mask0 := m % U32
  let mask := mask0 &&& (((U32 - 1) ^^^ mask0) + 1) % U32
  let c := 32
  let c := if mask ≠ 0 then c - 1 else c
  let c := if mask &&& 0x0000FFFF ≠ 0 then c - 16 else c
  let c := if mask &&& 0x00FF00FF ≠ 0 then c - 8 else c
  let c := if mask &&& 0x0F0F0F0F ≠ 0 then c - 4 else c
  let c := if mask &&& 0x33333333 ≠ 0 then c - 2 else c
  let c := if mask &&& 0x55555555 ≠ 0 then c - 1 else c
  c

/-- Model of mask_and_shift from the source. -/
def mask_and_shift (value mask : Nat) : Nat :=
  (value &&& mask) >>> bits_to_shift mask

/-- Value that i2cwritewithmask passes to i2cwrite: the new field value is
shifted to the mask position and merged with the cached register byte on the
bits outside the mask.  The C expression original & ~mask promotes the u8
operands to (at least) 32-bit width, so the complement is taken mod 2^32. -/
def i2cwritewithmask_val (val original mask : Nat) : Nat :=
  ((val <<< bits_to_shift mask) &&& mask) ||| (original &&& ((U32 - 1) ^^^ mask))

/-- Model of struct clk_register_offsets.  The C code leaves the struct
uninitialized on the stack and each case of idt24x_get_offsets assigns only
the fields meaningful for that output; the driver never reads the others for
that output, so the unassigned fields are represented by 0 here. -/
structure clk_register_offsets where
  oe_offset : Nat := 0
  oe_mask : Nat := 0
  dis_offset : Nat := 0
  dis_mask : Nat := 0
  n_17_16_offset : Nat := 0
  n_17_16_mask : Nat := 0
  n_15_8_offset : Nat := 0
  n_7_0_offset : Nat := 0
  nfrac_27_24_offset : Nat := 0
  nfrac_27_24_mask : Nat := 0
  nfrac_23_16_offset : Nat := 0
  nfrac_15_8_offset : Nat := 0
  nfrac_7_0_offset : Nat := 0
  ns1_offset : Nat := 0
  ns1_offset_mask : Nat := 0
  ns2_15_8_offset : Nat := 0
  ns2_7_0_offset : Nat := 0
deriving Repr, DecidableEq

/-- Model of struct idt24x_dividers.  The C arrays nint[3] and nfrac[3]
(indices 0,1,2 standing for Q1,Q2,Q3) are unrolled into named fields. -/
structure idt24x_dividers where
  dsmint : Nat
  dsmfrac : Nat
  ns1_q0 : Nat
  ns2_q0 : Nat
  nint0 : Nat
  nint1 : Nat
  nint2 : Nat
  nfrac0 : Nat
  nfrac1 : Nat
  nfrac2 : Nat
deriving Repr, DecidableEq

/-- Model of the driver state struct clk_idt24x, restricted to the fields the
verified operations read or write.  The C arrays frequencies[4],
regN_Qx_17_16[3] and regNFRAC_Qx_27_24[3] are unrolled into named fields. -/
structure clk_idt24x where
  min_freq : Nat
  max_freq : Nat
  input_clk_freq : Nat
  xtal_freq : Nat
  doubler_disabled : Bool
  frequencies0 : Nat
  frequencies1 : Nat
  frequencies2 : Nat
  frequencies3 : Nat
  regDSM_INT_8 : Nat
  regDSMFRAC_20_16 : Nat
  regOUTENx : Nat
  regQxDIS : Nat
  regNS1_Q0 : Nat
  regN_Qx_17_16_0 : Nat
  regN_Qx_17_16_1 : Nat
  regN_Qx_17_16_2 : Nat
  regNFRAC_Qx_27_24_0 : Nat
  regNFRAC_Qx_27_24_1 : Nat
  regNFRAC_Qx_27_24_2 : Nat
deriving Repr, DecidableEq

/-- Model of idt24x_get_offsets. -/
def idt24x_get_offsets (output_num : Nat) : Except Int clk_register_offsets :=
  match output_num with
  | 0 => .ok { oe_offset := IDT24x_REG_OUTEN, oe_mask := IDT24x_REG_OUTEN0_MASK,
               dis_offset := IDT24x_REG_Q_DIS, dis_mask := IDT24x_REG_Q0_DIS_MASK,
               ns1_offset := IDT24x_REG_NS1_Q0, ns1_offset_mask := IDT24x_REG_NS1_Q0_MASK,
               ns2_15_8_offset := IDT24x_REG_NS2_Q0_15_8, ns2_7_0_offset := IDT24x_REG_NS2_Q0_7_0 }
  | 1 => .ok { oe_offset := IDT24x_REG_OUTEN, oe_mask := IDT24x_REG_OUTEN1_MASK,
               dis_offset := IDT24x_REG_Q_DIS, dis_mask := IDT24x_REG_Q1_DIS_MASK,
               n_17_16_offset := IDT24x_REG_N_Q1_17_16, n_17_16_mask := IDT24x_REG_N_Q1_17_16_MASK,
               n_15_8_offset := IDT24x_REG_N_Q1_15_8, n_7_0_offset := IDT24x_REG_N_Q1_7_0,
               nfrac_27_24_offset := IDT24x_REG_NFRAC_Q1_27_24, nfrac_27_24_mask := IDT24x_REG_NFRAC_Q1_27_24_MASK,
               nfrac_23_16_offset := IDT24x_REG_NFRAC_Q1_23_16, nfrac_15_8_offset := IDT24x_REG_NFRAC_Q1_15_8,
               nfrac_7_0_offset := IDT24x_REG_NFRAC_Q1_7_0 }
  | 2 => .ok { oe_offset := IDT24x_REG_OUTEN, oe_mask := IDT24x_REG_OUTEN2_MASK,
               dis_offset := IDT24x_REG_Q_DIS, dis_mask := IDT24x_REG_Q2_DIS_MASK,
               n_17_16_offset := IDT24x_REG_N_Q2_17_16, n_17_16_mask := IDT24x_REG_N_Q2_17_16_MASK,
               n_15_8_offset := IDT24x_REG_N_Q2_15_8, n_7_0_offset := IDT24x_REG_N_Q2_7_0,
               nfrac_27_24_offset := IDT24x_REG_NFRAC_Q2_27_24, nfrac_27_24_mask := IDT24x_REG_NFRAC_Q2_27_24_MASK,
               nfrac_23_16_offset := IDT24x_REG_NFRAC_Q2_23_16, nfrac_15_8_offset := IDT24x_REG_NFRAC_Q2_15_8,
               nfrac_7_0_offset := IDT24x_REG_NFRAC_Q2_7_0 }
  | 3 => .ok { oe_offset := IDT24x_REG_OUTEN, oe_mask := IDT24x_REG_OUTEN3_MASK,
               dis_offset := IDT24x_REG_Q_DIS, dis_mask := IDT24x_REG_Q3_DIS_MASK,
               n_17_16_offset := IDT24x_REG_N_Q3_17_16, n_17_16_mask := IDT24x_REG_N_Q3_17_16_MASK,
               n_15_8_offset := IDT24x_REG_N_Q3_15_8, n_7_0_offset := IDT24x_REG_N_Q3_7_0,
               nfrac_27_24_offset := IDT24x_REG_NFRAC_Q3_27_24, nfrac_27_24_mask := IDT24x_REG_NFRAC_Q3_27_24_MASK,
               nfrac_23_16_offset := IDT24x_REG_NFRAC_Q3_23_16, nfrac_15_8_offset := IDT24x_REG_NFRAC_Q3_15_8,
               nfrac_7_0_offset := IDT24x_REG_NFRAC_Q3_7_0 }
  | _ => .error (-EINVAL)

/-- Loop state of the divider search in idt24x_calc_divs: the local variables
div, best_vco and is_lower_vco. -/
structure ScanState where
  div : Nat
  best_vco : Nat
  is_lower_vco : Bool
deriving Repr, DecidableEq

/-- Body of the divider-search while loop of idt24x_calc_divs for one value of
walk.  vco is a u32 local, so the product is reduced mod 2^32. -/
def calc_step (freq : Nat) (st : ScanState) (walk : Nat) : ScanState :=
  let vco := (freq * walk) % U32
  if IDT24x_VCO_MIN ≤ vco ∧ vco ≤ IDT24x_VCO_MAX then
    if vco ≤ IDT24x_VCO_OPT then
      if st.best_vco < vco ∨ st.is_lower_vco = false then
        { div := walk, best_vco := vco, is_lower_vco := true }
      else st
    else
      if st.is_lower_vco = false then
        if st.best_vco < vco then
          { div := walk, best_vco := vco, is_lower_vco := st.is_lower_vco }
        else st
      else st
  else st

/-- Value of the u32 local max_div in idt24x_calc_divs:
div64_u64((u64)IDT24x_VCO_MAX, freq * 2) * 2 with freq * 2 computed in u32 and
the result stored into a u32. -/
def calc_max_div (freq : Nat) : Nat :=
  ((IDT24x_VCO_MAX / ((freq * 2) % U32)) * 2) % U32

/-- Successive values taken by the loop variable walk in idt24x_calc_divs:
IDT24x_MIN_INT_DIVIDER, then steps of 2, while walk ≤ max_div.  For
max_div ≥ 6 this list is 6, 8, ..., up to max_div; (max_div - 4) / 2 is its
length. -/
def scan_walks (max_div : Nat) : List Nat :=
  (List.range ((max_div - 4) / 2)).map (fun i => IDT24x_MIN_INT_DIVIDER + 2 * i)

/-- Final loop state of the divider search of idt24x_calc_divs for a target
frequency. -/
def idt24x_scan (freq : Nat) : ScanState :=
  (scan_walks (calc_max_div freq)).foldl (calc_step freq) { div := 0, best_vco := 0, is_lower_vco := false }

/-- Divider selected by the search loop of idt24x_calc_divs (the local
variable div after the loop; 0 means no candidate was accepted). -/
def idt24x_sel_div (freq : Nat) : Nat :=
  (idt24x_scan freq).div

/-- Phase-detector frequency as computed in idt24x_calc_divs: the reference
(input clock if present, else crystal) times two unless the doubler is
disabled; pfd is a u32 local. -/
def calc_pfd (data : clk_idt24x) : Nat :=
  ((if data.input_clk_freq = 0 then data.xtal_freq else data.input_clk_freq) *
    (if data.doubler_disabled then 1 else 2)) % U32

/-- VCO frequency recomputed after the search in idt24x_calc_divs
(vco = div * freq, a u32 local). -/
def calc_vco (freq : Nat) : Nat :=
  (idt24x_sel_div freq * freq) % U32

/-- Integer part of the VCO feedback divider as stored by idt24x_calc_divs:
div64_u64_rem(vco, pfd, &rem) truncated into the u16 field dsmint. -/
def calc_dsmint (data : clk_idt24x) : Nat :=
  (calc_vco data.frequencies2 / calc_pfd data) % U16

/-- Fractional part of the VCO feedback divider as stored by
idt24x_calc_divs: div64_u64(rem * 1 << 21, pfd) into the u32 field dsmfrac.
In C, rem * 1 << 21 parses as (rem * 1) << 21 in u64 arithmetic. -/
def calc_dsmfrac (data : clk_idt24x) : Nat :=
  (((calc_vco data.frequencies2 % calc_pfd data) * 1) <<< 21 % U64 / calc_pfd data) % U32

/-- Model of idt24x_calc_divs.  The divs argument is the caller-provided
struct (uninitialized stack memory in idt24x_set_frequency); the function
assigns dsmint, dsmfrac, ns1_q0, ns2_q0 and, on success, nint[1] and
nfrac[1].  The Q0/Q1/Q3 not-implemented cases only log (dev_err) and fall
through in the C code; logging has no semantic effect and is not modelled. -/
def idt24x_calc_divs (data : clk_idt24x) (divs : idt24x_dividers) : Except Int idt24x_dividers :=
  let freq := data.frequencies2
  if freq = 0 then
    .error (-EINVAL)
  else
    let divs := { divs with dsmint := 0, dsmfrac := 0, ns1_q0 := 0, ns2_q0 := 0 }
    let st := idt24x_scan freq
    if st.div ≠ 0 then
      let divs := { divs with nint1 := st.div / 2, nfrac1 := 0 }
      .ok { divs with dsmint := calc_dsmint data, dsmfrac := calc_dsmfrac data }
    else
      .error (-EINVAL)

/-- One entry of the register-write trace: register offset and value passed
to i2cwrite.  Transport errors and retries of the register-access layer are
not modelled (writes always succeed). -/
abbrev RegWrite := Nat × Nat

/-- New value of the u8 shadow regOUTENx computed by idt24x_enable_output:
clear the output's enable bit, then set it again when enabling. -/
def enable_merge_oe (reg mask : Nat) (enable : Bool) : Nat :=
  let v := (reg &&& ((U32 - 1) ^^^ mask)) % U8
  if enable then (v ||| (1 <<< bits_to_shift mask)) % U8 else v

/-- New value of the u8 shadow regQxDIS computed by idt24x_enable_output:
clear the output's disable bit, then set it when disabling. -/
def enable_merge_dis (reg mask : Nat) (enable : Bool) : Nat :=
  let v := (reg &&& ((U32 - 1) ^^^ mask)) % U8
  if enable then v else (v ||| (1 <<< bits_to_shift mask)) % U8

/-- Model of idt24x_enable_output: merges the enable/disable bits of one
output into the cached regOUTENx/regQxDIS bytes and writes both registers. -/
def idt24x_enable_output (data : clk_idt24x) (output : Nat) (enable : Bool) :
    Except Int (clk_idt24x × List RegWrite) :=
  match idt24x_get_offsets output with
  | .error e => .error e
  | .ok offsets =>
    let outen := enable_merge_oe data.regOUTENx offsets.oe_mask enable
    let qdis := enable_merge_dis data.regQxDIS offsets.dis_mask enable
    .ok ({ data with regOUTENx := outen, regQxDIS := qdis },
         [(IDT24x_REG_OUTEN, outen), (IDT24x_REG_Q_DIS, qdis)])

/-- Requested frequency of output x for x = 1, 2, 3 (frequencies[x] in C). -/
def clk_idt24x.freqx (data : clk_idt24x) (x : Nat) : Nat :=
  match x with
  | 1 => data.frequencies1
  | 2 => data.frequencies2
  | _ => data.frequencies3

/-- nint[x-1] for x = 1, 2, 3. -/
def idt24x_dividers.nintx (divs : idt24x_dividers) (x : Nat) : Nat :=
  match x with
  | 1 => divs.nint0
  | 2 => divs.nint1
  | _ => divs.nint2

/-- nfrac[x-1] for x = 1, 2, 3. -/
def idt24x_dividers.nfracx (divs : idt24x_dividers) (x : Nat) : Nat :=
  match x with
  | 1 => divs.nfrac0
  | 2 => divs.nfrac1
  | _ => divs.nfrac2

/-- regN_Qx_17_16[x-1] for x = 1, 2, 3. -/
def clk_idt24x.regNx (data : clk_idt24x) (x : Nat) : Nat :=
  match x with
  | 1 => data.regN_Qx_17_16_0
  | 2 => data.regN_Qx_17_16_1
  | _ => data.regN_Qx_17_16_2

/-- regNFRAC_Qx_27_24[x-1] for x = 1, 2, 3. -/
def clk_idt24x.regNFRACx (data : clk_idt24x) (x : Nat) : Nat :=
  match x with
  | 1 => data.regNFRAC_Qx_27_24_0
  | 2 => data.regNFRAC_Qx_27_24_1
  | _ => data.regNFRAC_Qx_27_24_2

/-- One iteration (x = 1, 2, 3) of the per-output loop of
idt24x_update_device: when the output's requested frequency is nonzero,
write its integer and fractional divider registers, then enable or disable
the output.  The masked writes merge with the cached regN_Qx_17_16[x-1] and
regNFRAC_Qx_27_24[x-1] bytes.  idt24x_get_offsets never fails for x in 1..3;
the error branch mirrors the C early return (no writes). -/
def idt24x_update_q (data : clk_idt24x) (divs : idt24x_dividers) (x : Nat) :
    clk_idt24x × List RegWrite :=
  match idt24x_get_offsets x with
  | .error _ => (data, [])
  | .ok offsets =>
    let ws : List RegWrite :=
      if data.freqx x ≠ 0 then
        [(offsets.n_17_16_offset,
           i2cwritewithmask_val ((divs.nintx x >>> 16) &&& offsets.n_17_16_mask)
             (data.regNx x) offsets.n_17_16_mask),
         (offsets.n_15_8_offset, (divs.nintx x >>> 8) &&& 0xFF),
         (offsets.n_7_0_offset, divs.nintx x &&& 0xFF),
         (offsets.nfrac_27_24_offset,
           i2cwritewithmask_val ((divs.nfracx x >>> 24) &&& offsets.nfrac_27_24_mask)
             (data.regNFRACx x) offsets.nfrac_27_24_mask),
         (offsets.nfrac_23_16_offset, (divs.nfracx x >>> 16) &&& 0xFF),
         (offsets.nfrac_15_8_offset, (divs.nfracx x >>> 8) &&& 0xFF),
         (offsets.nfrac_7_0_offset, divs.nfracx x &&& 0xFF)]
      else []
    match idt24x_enable_output data x (data.freqx x ≠ 0) with
    | .ok (data2, we) => (data2, ws ++ we)
    | .error _ => (data, ws)

/-- Model of idt24x_update_device: writes the computed dividers to hardware.
The DSM_INT_8, DSMFRAC_20_16 and NS1_Q0 writes are masked merges; the
DSMFRAC_20_16 merge uses data.regDSM_INT_8 as the cached byte, exactly as the
C call does.  The enable_output calls update the cached enable bytes; the
shadows of the masked-written registers themselves are not refreshed. -/
def idt24x_update_device (data : clk_idt24x) (divs : idt24x_dividers) :
    clk_idt24x × List RegWrite :=
  let w0 : List RegWrite :=
    [(IDT24x_REG_DSM_INT_8,
       i2cwritewithmask_val ((divs.dsmint >>> 8) &&& IDT24x_REG_DSM_INT_8_MASK)
         data.regDSM_INT_8 IDT24x_REG_DSM_INT_8_MASK),
     (IDT24x_REG_DSM_INT_7_0, divs.dsmint &&& 0xFF),
     (IDT24x_REG_DSMFRAC_20_16,
       i2cwritewithmask_val ((divs.dsmfrac >>> 16) &&& IDT24x_REG_DSMFRAC_20_16_MASK)
         data.regDSM_INT_8 IDT24x_REG_DSMFRAC_20_16_MASK),
     (IDT24x_REG_DSMFRAC_15_8, (divs.dsmfrac >>> 8) &&& 0xFF),
     (IDT24x_REG_DSMFRAC_7_0, divs.dsmfrac &&& 0xFF),
     (IDT24x_REG_NS1_Q0,
       i2cwritewithmask_val ((divs.ns1_q0 >>> 8) &&& IDT24x_REG_NS1_Q0_MASK)
         data.regNS1_Q0 IDT24x_REG_NS1_Q0_MASK),
     (IDT24x_REG_NS2_Q0_15_8, (divs.ns2_q0 >>> 8) &&& 0xFF),
     (IDT24x_REG_NS2_Q0_7_0, divs.ns2_q0 &&& 0xFF)]
  let s0 : clk_idt24x × List RegWrite :=
    match idt24x_enable_output data 0 (data.frequencies0 ≠ 0) with
    | .ok r => r
    | .error _ => (data, [])
  let s1 := idt24x_update_q s0.1 divs 1
  let s2 := idt24x_update_q s1.1 divs 2
  let s3 := idt24x_update_q s2.1 divs 3
  (s3.1, w0 ++ s0.2 ++ s1.2 ++ s2.2 ++ s3.2)

/-- Model of idt24x_set_frequency.  A zero requested frequency on Q2 disables
that output and returns success without computing dividers (the return value
of the enable_output call is ignored by the C code); otherwise a reference
frequency is required, dividers are computed and written. -/
def idt24x_set_frequency (data : clk_idt24x) (divs0 : idt24x_dividers) :
    Except Int (clk_idt24x × List RegWrite) :=
  if data.frequencies2 = 0 then
    match idt24x_enable_output data 2 false with
    | .ok r => .ok r
    | .error _ => .ok (data, [])
  else if data.input_clk_freq = 0 ∧ data.xtal_freq = 0 then
    .error (-EINVAL)
  else
    match idt24x_calc_divs data divs0 with
    | .error e => .error e
    | .ok divs => .ok (idt24x_update_device data divs)

/-- Model of idt24x_set_rate, the set_rate clock operation: reject rates
outside [min_freq, max_freq], store the rate as the requested Q2 frequency,
then run idt24x_set_frequency.  divs0 models the uninitialized stack struct
idt24x_dividers of idt24x_set_frequency. -/
def idt24x_set_rate (data : clk_idt24x) (divs0 : idt24x_dividers) (rate : Nat) :
    Except Int (clk_idt24x × List RegWrite) :=
  if rate < data.min_freq ∨ data.max_freq < rate then
    .error (-EINVAL)
  else
    idt24x_set_frequency { data with frequencies2 := rate } divs0

/-- Values written to one register offset, in order, within a write trace. -/
def writes_to (l : List RegWrite) (reg : Nat) : List Nat :=
  (l.filter (fun p => p.fst == reg)).map Prod.snd

/-! Divider-search analysis: predicates over candidate dividers and the
invariant of the search loop. -/

/-- Candidate divider whose VCO lies in the legal window of
idt24x_calc_divs. -/
abbrev scan_in_range (freq w : Nat) : Prop :=
  IDT24x_VCO_MIN ≤ freq * w ∧ freq * w ≤ IDT24x_VCO_MAX

/-- Candidate divider whose VCO is legal and at most the optimal threshold. -/
abbrev scan_below (freq w : Nat) : Prop :=
  IDT24x_VCO_MIN ≤ freq * w ∧ freq * w ≤ IDT24x_VCO_OPT

theorem scan_below_in_range {freq w : Nat} (h : scan_below freq w) :
    scan_in_range freq w := by
  obtain ⟨h1, h2⟩ := h
  refine ⟨h1, ?_⟩
  unfold IDT24x_VCO_OPT at h2
  unfold IDT24x_VCO_MAX
  omega

/-- Membership in the candidate list walked by the search loop: exactly the
even values from 6 up to max_div. -/
theorem mem_scan_walks {m w : Nat} :
    w ∈ scan_walks m ↔ 2 ∣ w ∧ 6 ≤ w ∧ w ≤ m := by
  unfold scan_walks IDT24x_MIN_INT_DIVIDER
  simp only [List.mem_map, List.mem_range]
  constructor
  · rintro ⟨i, hi, rfl⟩
    omega
  · rintro ⟨h2, h6, hm⟩
    exact ⟨(w - 6) / 2, by omega, by omega⟩

theorem scan_walks_pairwise (m : Nat) : (scan_walks m).Pairwise (· < ·) := by
  unfold scan_walks
  exact (List.pairwise_lt_range _).map _ (fun a b h => by omega)

/-- Invariant of the divider-search loop after processing the candidate
list L, describing the loop variables div, best_vco and is_lower_vco. -/
structure ScanInv (freq : Nat) (L : List Nat) (st : ScanState) : Prop where
  lower_iff : st.is_lower_vco = true ↔ ∃ w ∈ L, scan_below freq w
  div_zero_iff : st.div = 0 ↔ ∀ w ∈ L, ¬ scan_in_range freq w
  best_of_zero : st.div = 0 → st.best_vco = 0
  div_mem : st.div ≠ 0 → st.div ∈ L ∧ st.best_vco = freq * st.div ∧ scan_in_range freq st.div
  lower_max : st.is_lower_vco = true →
    scan_below freq st.div ∧ ∀ w ∈ L, scan_below freq w → w ≤ st.div
  upper_max : st.is_lower_vco = false → ∀ w ∈ L, scan_in_range freq w → w ≤ st.div

theorem scan_fold_inv (freq : Nat) (hf : 0 < freq) :
    ∀ L : List Nat, (∀ w ∈ L, 0 < w ∧ freq * w < U32) → L.Pairwise (· < ·) →
      ScanInv freq L
        (L.foldl (calc_step freq) { div := 0, best_vco := 0, is_lower_vco := false }) := by
  intro L
  induction L using List.reverseRecOn with
  | nil =>
    intro _ _
    exact { lower_iff := by simp
            div_zero_iff := by simp
            best_of_zero := fun _ => rfl
            div_mem := by simp
            lower_max := by simp
            upper_max := by simp }
  | append_singleton L w ih =>
    intro hbound hpair
    have hwmem : w ∈ L ++ [w] := by simp
    have hwpos : 0 < w := (hbound w hwmem).1
    have hwlt : freq * w < U32 := (hbound w hwmem).2
    have hboundL : ∀ x ∈ L, 0 < x ∧ freq * x < U32 := fun x hx => hbound x (by simp [hx])
    have hpairL : L.Pairwise (· < ·) := (List.pairwise_append.mp hpair).1
    have hlt : ∀ x ∈ L, x < w := by
      have h := (List.pairwise_append.mp hpair).2.2
      intro x hx
      exact h x hx w (by simp)
    have IH := ih hboundL hpairL
    rw [List.foldl_append]
    set st := L.foldl (calc_step freq) { div := 0, best_vco := 0, is_lower_vco := false } with hst
    simp only [List.foldl_cons, List.foldl_nil]
    have hbest : IDT24x_VCO_MIN ≤ freq * w → st.best_vco < freq * w := by
      intro hmin
      by_cases hdiv : st.div = 0
      · rw [IH.best_of_zero hdiv]
        unfold IDT24x_VCO_MIN at hmin
        omega
      · obtain ⟨hmem, hbv, _⟩ := IH.div_mem hdiv
        rw [hbv]
        exact mul_lt_mul_of_pos_left (hlt _ hmem) hf
    simp only [calc_step, Nat.mod_eq_of_lt hwlt]
    by_cases hin : IDT24x_VCO_MIN ≤ freq * w ∧ freq * w ≤ IDT24x_VCO_MAX
    · rw [if_pos hin]
      by_cases hopt : freq * w ≤ IDT24x_VCO_OPT
      · -- below-threshold candidate: always accepted
        have hb : scan_below freq w := ⟨hin.1, hopt⟩
        rw [if_pos hopt, if_pos (Or.inl (hbest hin.1))]
        refine { lower_iff := ?_, div_zero_iff := ?_, best_of_zero := ?_,
                 div_mem := ?_, lower_max := ?_, upper_max := ?_ }
        · exact iff_of_true rfl ⟨w, hwmem, hb⟩
        · refine iff_of_false (by show ¬ (w = 0); omega) ?_
          intro hall
          exact hall w hwmem (scan_below_in_range hb)
        · intro h
          exact absurd h (by show ¬ (w = 0); omega)
        · intro _
          exact ⟨hwmem, rfl, scan_below_in_range hb⟩
        · intro _
          refine ⟨hb, ?_⟩
          intro x hx _
          rcases List.mem_append.mp hx with hxL | hxw
          · exact le_of_lt (hlt x hxL)
          · simp only [List.mem_singleton] at hxw
            exact le_of_eq hxw
        · intro h
          exact absurd h (by simp)
      · -- above-threshold candidate
        rw [if_neg hopt]
        by_cases hl : st.is_lower_vco = true
        · -- a below-threshold candidate was already accepted: state unchanged
          rw [if_neg (by simp [hl])]
          obtain ⟨wb, hwbL, hwb⟩ := IH.lower_iff.mp hl
          have hdivne : st.div ≠ 0 := by
            intro h0
            exact (IH.div_zero_iff.mp h0) wb hwbL (scan_below_in_range hwb)
          refine { lower_iff := ?_, div_zero_iff := ?_, best_of_zero := ?_,
                   div_mem := ?_, lower_max := ?_, upper_max := ?_ }
          · exact iff_of_true hl ⟨wb, by simp [hwbL], hwb⟩
          · refine iff_of_false hdivne ?_
            intro hall
            exact hall w hwmem hin
          · intro h
            exact absurd h hdivne
          · intro h
            obtain ⟨hm, hb, hr⟩ := IH.div_mem h
            exact ⟨by simp [hm], hb, hr⟩
          · intro _
            obtain ⟨hbd, hmax⟩ := IH.lower_max hl
            refine ⟨hbd, ?_⟩
            intro x hx hbx
            rcases List.mem_append.mp hx with hxL | hxw
            · exact hmax x hxL hbx
            · simp only [List.mem_singleton] at hxw
              subst hxw
              exact absurd hbx.2 hopt
          · intro h
            rw [hl] at h
            exact absurd h (by simp)
        · -- no below-threshold candidate yet: accepted as best above-threshold
          have hl2 : st.is_lower_vco = false := by
            cases h : st.is_lower_vco
            · rfl
            · exact absurd h hl
          rw [if_pos hl2, if_pos (hbest hin.1)]
          refine { lower_iff := ?_, div_zero_iff := ?_, best_of_zero := ?_,
                   div_mem := ?_, lower_max := ?_, upper_max := ?_ }
          · refine iff_of_false (by simp [hl2]) ?_
            rintro ⟨x, hx, hbx⟩
            rcases List.mem_append.mp hx with hxL | hxw
            · have hcontra := IH.lower_iff.mpr ⟨x, hxL, hbx⟩
              rw [hl2] at hcontra
              exact absurd hcontra (by simp)
            · simp only [List.mem_singleton] at hxw
              subst hxw
              exact absurd hbx.2 hopt
          · refine iff_of_false (by show ¬ (w = 0); omega) ?_
            intro hall
            exact hall w hwmem hin
          · intro h
            exact absurd h (by show ¬ (w = 0); omega)
          · intro _
            exact ⟨hwmem, rfl, hin⟩
          · intro h
            have h2 : st.is_lower_vco = true := h
            rw [hl2] at h2
            exact absurd h2 (by simp)
          · intro _
            intro x hx hinx
            rcases List.mem_append.mp hx with hxL | hxw
            · exact le_of_lt (hlt x hxL)
            · simp only [List.mem_singleton] at hxw
              exact le_of_eq hxw
    · -- candidate rejected: VCO out of range, state unchanged
      rw [if_neg hin]
      refine { lower_iff := ?_, div_zero_iff := ?_, best_of_zero := IH.best_of_zero,
               div_mem := ?_, lower_max := ?_, upper_max := ?_ }
      · refine IH.lower_iff.trans ?_
        constructor
        · rintro ⟨x, hx, hbx⟩
          exact ⟨x, by simp [hx], hbx⟩
        · rintro ⟨x, hx, hbx⟩
          rcases List.mem_append.mp hx with hxL | hxw
          · exact ⟨x, hxL, hbx⟩
          · simp only [List.mem_singleton] at hxw
            subst hxw
            exact absurd (scan_below_in_range hbx) hin
      · refine IH.div_zero_iff.trans ?_
        constructor
        · intro hall x hx hinx
          rcases List.mem_append.mp hx with hxL | hxw
          · exact hall x hxL hinx
          · simp only [List.mem_singleton] at hxw
            subst hxw
            exact hin hinx
        · intro hall x hx hinx
          exact hall x (by simp [hx]) hinx
      · intro h
        obtain ⟨hm, hb, hr⟩ := IH.div_mem h
        exact ⟨by simp [hm], hb, hr⟩
      · intro h
        obtain ⟨hbd, hmax⟩ := IH.lower_max h
        refine ⟨hbd, ?_⟩
        intro x hx hbx
        rcases List.mem_append.mp hx with hxL | hxw
        · exact hmax x hxL hbx
        · simp only [List.mem_singleton] at hxw
          subst hxw
          exact absurd (scan_below_in_range hbx) hin
      · intro h
        intro x hx hinx
        rcases List.mem_append.mp hx with hxL | hxw
        · exact IH.upper_max h x hxL hinx
        · simp only [List.mem_singleton] at hxw
          subst hxw
          exact absurd hinx hin

theorem vco_max_lt_u32 : IDT24x_VCO_MAX < U32 := by
  unfold IDT24x_VCO_MAX U32
  norm_num

/-- Without u32 wraparound (guaranteed for 0 < freq ≤ 300 MHz), max_div times
the target frequency never exceeds the VCO upper bound. -/
theorem max_div_mul_le (freq : Nat) (h1 : 0 < freq) (h2 : freq ≤ 300000000) :
    freq * calc_max_div freq ≤ IDT24x_VCO_MAX ∧
    calc_max_div freq = IDT24x_VCO_MAX / (freq * 2) * 2 := by
  have hfree : freq * 2 < U32 := by
    unfold U32
    omega
  have key : IDT24x_VCO_MAX / (freq * 2) * 2 * freq ≤ IDT24x_VCO_MAX := by
    have h := Nat.div_mul_le_self IDT24x_VCO_MAX (freq * 2)
    calc IDT24x_VCO_MAX / (freq * 2) * 2 * freq
        = IDT24x_VCO_MAX / (freq * 2) * (freq * 2) := by ring
      _ ≤ IDT24x_VCO_MAX := h
  have raw : IDT24x_VCO_MAX / (freq * 2) * 2 ≤ IDT24x_VCO_MAX := by
    have hstep : IDT24x_VCO_MAX / (freq * 2) * 2 ≤ IDT24x_VCO_MAX / (freq * 2) * 2 * freq :=
      Nat.le_mul_of_pos_right _ h1
    omega
  have hmax := vco_max_lt_u32
  have heq : calc_max_div freq = IDT24x_VCO_MAX / (freq * 2) * 2 := by
    unfold calc_max_div
    rw [Nat.mod_eq_of_lt hfree, Nat.mod_eq_of_lt (by omega)]
  refine ⟨?_, heq⟩
  rw [heq, mul_comm]
  exact key

/-- Every walked candidate is positive and its VCO product does not overflow
a u32 when 0 < freq ≤ 300 MHz. -/
theorem scan_walks_bound (freq : Nat) (h1 : 0 < freq) (h2 : freq ≤ 300000000) :
    ∀ w ∈ scan_walks (calc_max_div freq), 0 < w ∧ freq * w < U32 := by
  intro w hw
  obtain ⟨h2d, h6, hle⟩ := mem_scan_walks.mp hw
  have hmul : freq * w ≤ freq * calc_max_div freq := Nat.mul_le_mul_left _ hle
  have h3 := (max_div_mul_le freq h1 h2).1
  have h4 := vco_max_lt_u32
  exact ⟨by omega, by omega⟩

/-- Invariant of the divider search of idt24x_calc_divs at its final state. -/
theorem scan_inv_main (freq : Nat) (h1 : 0 < freq) (h2 : freq ≤ 300000000) :
    ScanInv freq (scan_walks (calc_max_div freq)) (idt24x_scan freq) := by
  unfold idt24x_scan
  exact scan_fold_inv freq h1 _ (scan_walks_bound freq h1 h2) (scan_walks_pairwise _)

/-- Driver state requesting 125 MHz on Q2 with a 25 MHz crystal reference and
the doubler enabled (doubler_disabled = false), all shadow bytes zero. -/
def data125 : clk_idt24x :=
  { min_freq := IDT24x_MIN_FREQ, max_freq := IDT24x_MAX_FREQ, input_clk_freq := 0,
    xtal_freq := 25000000, doubler_disabled := false,
    frequencies0 := 0, frequencies1 := 0, frequencies2 := 125000000, frequencies3 := 0,
    regDSM_INT_8 := 0, regDSMFRAC_20_16 := 0, regOUTENx := 0, regQxDIS := 0, regNS1_Q0 := 0,
    regN_Qx_17_16_0 := 0, regN_Qx_17_16_1 := 0, regN_Qx_17_16_2 := 0,
    regNFRAC_Qx_27_24_0 := 0, regNFRAC_Qx_27_24_1 := 0, regNFRAC_Qx_27_24_2 := 0 }

/-- All-zero dividers struct, standing in for the uninitialized stack struct
passed to idt24x_calc_divs. -/
def divs_zero : idt24x_dividers :=
  { dsmint := 0, dsmfrac := 0, ns1_q0 := 0, ns2_q0 := 0, nint0 := 0, nint1 := 0, nint2 := 0,
    nfrac0 := 0, nfrac1 := 0, nfrac2 := 0 }

/-- Result of idt24x_calc_divs on data125. -/
def divs125 : idt24x_dividers :=
  { dsmint := 70, dsmfrac := 0, ns1_q0 := 0, ns2_q0 := 0, nint0 := 0, nint1 := 14, nint2 := 0,
    nfrac0 := 0, nfrac1 := 0, nfrac2 := 0 }

/-- C1: for a target frequency between 1 MHz and 300 MHz and a configured
reference, idt24x_calc_divs either fails with -EINVAL (and the search
selected no divider), or succeeds with a selected divider d whose VCO
frequency freq * d lies in [IDT24x_VCO_MIN, IDT24x_VCO_MAX]; it never
succeeds with an out-of-window divider. -/
theorem calc_divs_vco_window (data : clk_idt24x) (divs0 : idt24x_dividers)
    (hf1 : IDT24x_MIN_FREQ ≤ data.frequencies2) (hf2 : data.frequencies2 ≤ IDT24x_MAX_FREQ)
    (href : data.input_clk_freq ≠ 0 ∨ data.xtal_freq ≠ 0) :
    (idt24x_calc_divs data divs0 = .error (-EINVAL) ∧ idt24x_sel_div data.frequencies2 = 0) ∨
    (∃ divs, idt24x_calc_divs data divs0 = .ok divs ∧
      idt24x_sel_div data.frequencies2 ≠ 0 ∧
      IDT24x_VCO_MIN ≤ data.frequencies2 * idt24x_sel_div data.frequencies2 ∧
      data.frequencies2 * idt24x_sel_div data.frequencies2 ≤ IDT24x_VCO_MAX) := by
  have hf0 : ¬ data.frequencies2 = 0 := by
    unfold IDT24x_MIN_FREQ at hf1
    omega
  have hpos : 0 < data.frequencies2 := Nat.pos_of_ne_zero hf0
  have hle : data.frequencies2 ≤ 300000000 := by
    unfold IDT24x_MAX_FREQ at hf2
    exact hf2
  by_cases hd : (idt24x_scan data.frequencies2).div = 0
  · left
    constructor
    · simp only [idt24x_calc_divs]
      rw [if_neg hf0, if_neg (by simp [hd])]
    · exact hd
  · right
    have INV := scan_inv_main data.frequencies2 hpos hle
    have hrange := (INV.div_mem hd).2.2
    have hok : ∃ divs, idt24x_calc_divs data divs0 = .ok divs := by
      simp only [idt24x_calc_divs]
      rw [if_neg hf0, if_pos hd]
      exact ⟨_, rfl⟩
    obtain ⟨divs, hok⟩ := hok
    exact ⟨divs, hok, hd, hrange.1, hrange.2⟩

/-- Witness for C1 at the 125 MHz request of data125. -/
theorem calc_divs_vco_window_witness :
    (idt24x_calc_divs data125 divs_zero = .error (-EINVAL) ∧
      idt24x_sel_div data125.frequencies2 = 0) ∨
    (∃ divs, idt24x_calc_divs data125 divs_zero = .ok divs ∧
      idt24x_sel_div data125.frequencies2 ≠ 0 ∧
      IDT24x_VCO_MIN ≤ data125.frequencies2 * idt24x_sel_div data125.frequencies2 ∧
      data125.frequencies2 * idt24x_sel_div data125.frequencies2 ≤ IDT24x_VCO_MAX) :=
  calc_divs_vco_window data125 divs_zero (by decide) (by decide) (Or.inr (by decide))

/-- C2: whenever some even candidate divider in [6, max_div] has a VCO in
the legal window, the search of idt24x_calc_divs selects a candidate from
that window; if any candidate has VCO at most the optimal threshold, the
selected one is such a candidate with the highest VCO (so an above-threshold
candidate never beats a below-threshold one), and only when no candidate is
below the threshold is the selected one the candidate with the highest VCO
overall. -/
theorem divider_search_policy (freq : Nat) (h1 : 0 < freq) (h2 : freq ≤ 300000000)
    (hex : ∃ w, (2 ∣ w ∧ 6 ≤ w ∧ w ≤ calc_max_div freq) ∧ scan_in_range freq w) :
    (2 ∣ idt24x_sel_div freq ∧ 6 ≤ idt24x_sel_div freq ∧
      idt24x_sel_div freq ≤ calc_max_div freq) ∧
    scan_in_range freq (idt24x_sel_div freq) ∧
    ((∃ w, (2 ∣ w ∧ 6 ≤ w ∧ w ≤ calc_max_div freq) ∧ scan_below freq w) →
      scan_below freq (idt24x_sel_div freq) ∧
      ∀ w, 2 ∣ w → 6 ≤ w → w ≤ calc_max_div freq → scan_below freq w →
        freq * w ≤ freq * idt24x_sel_div freq) ∧
    ((¬ ∃ w, (2 ∣ w ∧ 6 ≤ w ∧ w ≤ calc_max_div freq) ∧ scan_below freq w) →
      ∀ w, 2 ∣ w → 6 ≤ w → w ≤ calc_max_div freq → scan_in_range freq w →
        freq * w ≤ freq * idt24x_sel_div freq) := by
  have INV := scan_inv_main freq h1 h2
  obtain ⟨w0, hw0c, hw0r⟩ := hex
  have hw0mem : w0 ∈ scan_walks (calc_max_div freq) := mem_scan_walks.mpr hw0c
  have hd : (idt24x_scan freq).div ≠ 0 := by
    intro h0
    exact (INV.div_zero_iff.mp h0) w0 hw0mem hw0r
  obtain ⟨hdmem, _, hdrange⟩ := INV.div_mem hd
  refine ⟨mem_scan_walks.mp hdmem, hdrange, ?_, ?_⟩
  · rintro ⟨wb, hwbc, hwbb⟩
    have hl : (idt24x_scan freq).is_lower_vco = true :=
      INV.lower_iff.mpr ⟨wb, mem_scan_walks.mpr hwbc, hwbb⟩
    obtain ⟨hbd, hmax⟩ := INV.lower_max hl
    refine ⟨hbd, ?_⟩
    intro w hdvd h6 hle2 hwb
    exact Nat.mul_le_mul_left _ (hmax w (mem_scan_walks.mpr ⟨hdvd, h6, hle2⟩) hwb)
  · intro hnone
    have hl : (idt24x_scan freq).is_lower_vco = false := by
      cases hcase : (idt24x_scan freq).is_lower_vco
      · rfl
      · obtain ⟨wb, hwbm, hwbb⟩ := INV.lower_iff.mp hcase
        exact absurd ⟨wb, mem_scan_walks.mp hwbm, hwbb⟩ hnone
    intro w hdvd h6 hle2 hwr
    exact Nat.mul_le_mul_left _
      (INV.upper_max hl w (mem_scan_walks.mpr ⟨hdvd, h6, hle2⟩) hwr)

/-- Witness for C2 at freq = 125 MHz, where candidate 24 is in range. -/
theorem divider_search_policy_witness :
    (2 ∣ idt24x_sel_div 125000000 ∧ 6 ≤ idt24x_sel_div 125000000 ∧
      idt24x_sel_div 125000000 ≤ calc_max_div 125000000) ∧
    scan_in_range 125000000 (idt24x_sel_div 125000000) ∧
    ((∃ w, (2 ∣ w ∧ 6 ≤ w ∧ w ≤ calc_max_div 125000000) ∧ scan_below 125000000 w) →
      scan_below 125000000 (idt24x_sel_div 125000000) ∧
      ∀ w, 2 ∣ w → 6 ≤ w → w ≤ calc_max_div 125000000 → scan_below 125000000 w →
        125000000 * w ≤ 125000000 * idt24x_sel_div 125000000) ∧
    ((¬ ∃ w, (2 ∣ w ∧ 6 ≤ w ∧ w ≤ calc_max_div 125000000) ∧ scan_below 125000000 w) →
      ∀ w, 2 ∣ w → 6 ≤ w → w ≤ calc_max_div 125000000 → scan_in_range 125000000 w →
        125000000 * w ≤ 125000000 * idt24x_sel_div 125000000) :=
  divider_search_policy 125000000 (by decide) (by decide)
    ⟨24, ⟨⟨12, by decide⟩, by decide, by decide⟩, by decide⟩

/-- C3: requesting 125 MHz on the implemented output Q2 with a 25 MHz
reference and the doubler enabled (pfd = 50 MHz) selects divider 28, whose
VCO is exactly 3,500,000,000 Hz, and yields dsmint = 70 and dsmfrac = 0. -/
theorem calc_divs_125mhz_end_to_end :
    idt24x_sel_div 125000000 = 28 ∧
    (125000000 : Nat) * 28 = 3500000000 ∧
    calc_pfd data125 = 50000000 ∧
    idt24x_calc_divs data125 divs_zero = .ok divs125 ∧
    divs125.dsmint = 70 ∧ divs125.dsmfrac = 0 :=
  ⟨by decide, by decide, by decide, by rfl, rfl, rfl⟩

/-- Driver state requesting 100 MHz on Q2 with a 3 Hz crystal and the
doubler disabled, all shadow bytes zero; pfd = 3 Hz. -/
def dataC4 : clk_idt24x :=
  { min_freq := IDT24x_MIN_FREQ, max_freq := IDT24x_MAX_FREQ, input_clk_freq := 0,
    xtal_freq := 3, doubler_disabled := true,
    frequencies0 := 0, frequencies1 := 0, frequencies2 := 100000000, frequencies3 := 0,
    regDSM_INT_8 := 0, regDSMFRAC_20_16 := 0, regOUTENx := 0, regQxDIS := 0, regNS1_Q0 := 0,
    regN_Qx_17_16_0 := 0, regN_Qx_17_16_1 := 0, regN_Qx_17_16_2 := 0,
    regNFRAC_Qx_27_24_0 := 0, regNFRAC_Qx_27_24_1 := 0, regNFRAC_Qx_27_24_2 := 0 }

/-- Result of idt24x_calc_divs on dataC4 (selected divider 34). -/
def divsC4 : idt24x_dividers :=
  { dsmint := 19285, dsmfrac := 699050, ns1_q0 := 0, ns2_q0 := 0, nint0 := 0, nint1 := 17,
    nint2 := 0, nfrac0 := 0, nfrac1 := 0, nfrac2 := 0 }

/-- Round-to-nearest (half up) integer division, the rounding the spec
claims for the 21-bit fractional scaling. -/
def round_nearest_div (a b : Nat) : Nat := (2 * a + b) / (2 * b)

/-- Counterexample to C4: with a 100 MHz target and a 3 Hz crystal (doubler
disabled) the search succeeds with vco = 3,400,000,000 and pfd = 3, but the
stored integer field is the 16-bit truncation 19285 of
floor(vco / pfd) = 1,133,333,333, and the stored fractional field is the
truncating quotient 699050 rather than the round-to-nearest value 699051. -/
theorem calc_divs_rounding_counterexample :
    idt24x_calc_divs dataC4 divs_zero = .ok divsC4 ∧
    calc_vco 100000000 = 3400000000 ∧
    calc_pfd dataC4 = 3 ∧
    (3400000000 : Nat) / 3 = 1133333333 ∧
    divsC4.dsmint ≠ 1133333333 ∧
    round_nearest_div (3400000000 % 3 * 2 ^ 21) 3 = 699051 ∧
    divsC4.dsmfrac ≠ 699051 :=
  ⟨by rfl, by decide, by decide, by decide, by decide, by decide, by decide⟩

/-- C4 amended: for every successful divider calculation, the stored integer
feedback-divider field is floor(vco / pfd) truncated to the 16-bit field
width, and the stored 21-bit fractional field is the truncating quotient
floor((vco mod pfd) * 2^21 / pfd) (multiply before divide, no rounding to
nearest). -/
theorem calc_divs_feedback_fields (data : clk_idt24x) (divs0 divs : idt24x_dividers)
    (h : idt24x_calc_divs data divs0 = .ok divs) :
    divs.dsmint = calc_vco data.frequencies2 / calc_pfd data % U16 ∧
    divs.dsmfrac = calc_vco data.frequencies2 % calc_pfd data * 2 ^ 21 / calc_pfd data := by
  have hfrac : calc_dsmfrac data =
      calc_vco data.frequencies2 % calc_pfd data * 2 ^ 21 / calc_pfd data := by
    unfold calc_dsmfrac
    rw [mul_one, Nat.shiftLeft_eq]
    have hv : calc_vco data.frequencies2 < 2 ^ 32 := by
      unfold calc_vco U32
      exact Nat.mod_lt _ (by norm_num)
    have hr32 : calc_vco data.frequencies2 % calc_pfd data < 2 ^ 32 :=
      lt_of_le_of_lt (Nat.mod_le _ _) hv
    have h64 : calc_vco data.frequencies2 % calc_pfd data * 2 ^ 21 < U64 := by
      unfold U64
      calc calc_vco data.frequencies2 % calc_pfd data * 2 ^ 21
          < 2 ^ 32 * 2 ^ 21 := (Nat.mul_lt_mul_right (by norm_num)).mpr hr32
        _ < 2 ^ 64 := by norm_num
    rw [Nat.mod_eq_of_lt h64]
    by_cases hp : calc_pfd data = 0
    · rw [hp]
      simp
    · have hppos : 0 < calc_pfd data := Nat.pos_of_ne_zero hp
      have hplt : calc_vco data.frequencies2 % calc_pfd data < calc_pfd data :=
        Nat.mod_lt _ hppos
      have hq : calc_vco data.frequencies2 % calc_pfd data * 2 ^ 21 / calc_pfd data < 2 ^ 21 := by
        rw [Nat.div_lt_iff_lt_mul hppos]
        calc calc_vco data.frequencies2 % calc_pfd data * 2 ^ 21
            < calc_pfd data * 2 ^ 21 := (Nat.mul_lt_mul_right (by norm_num)).mpr hplt
          _ = 2 ^ 21 * calc_pfd data := by ring
      rw [Nat.mod_eq_of_lt (by unfold U32; omega)]
  simp only [idt24x_calc_divs] at h
  split at h
  · simp at h
  · split at h
    · injection h with h2
      subst h2
      exact ⟨rfl, hfrac⟩
    · simp at h

/-- Witness for the amended C4 at the 125 MHz request of data125. -/
theorem calc_divs_feedback_fields_witness :
    divs125.dsmint = calc_vco data125.frequencies2 / calc_pfd data125 % U16 ∧
    divs125.dsmfrac =
      calc_vco data125.frequencies2 % calc_pfd data125 * 2 ^ 21 / calc_pfd data125 :=
  calc_divs_feedback_fields data125 divs_zero divs125 (by rfl)

/-- Trailing-zero count characterisation of bits_to_shift on bytes: for a
nonzero byte mask the returned shift is the exact number of trailing zero
bits (the largest power of two dividing the mask). -/
theorem bits_to_shift_byte :
    ∀ m, m < 256 → m ≠ 0 → 2 ^ bits_to_shift m ∣ m ∧ ¬ 2 ^ (bits_to_shift m + 1) ∣ m := by
  decide

/-- C5: the byte the masked-write helper passes to write is the new field
value shifted left by the mask trailing-zero count, ANDed with the mask,
ORed with the shadow byte ANDed with the byte-complement of the mask; on
every bit position outside the mask the passed byte agrees with the shadow
byte. -/
theorem masked_write_merge (V S M : Nat) (hV : V < 256) (hS : S < 256) (hM : M < 256) :
    (M ≠ 0 → 2 ^ bits_to_shift M ∣ M ∧ ¬ 2 ^ (bits_to_shift M + 1) ∣ M) ∧
    i2cwritewithmask_val V S M = ((V <<< bits_to_shift M) &&& M) ||| (S &&& (255 ^^^ M)) ∧
    (∀ i, M.testBit i = false → (i2cwritewithmask_val V S M).testBit i = S.testBit i) := by
  refine ⟨bits_to_shift_byte M hM, ?_, ?_⟩
  · unfold i2cwritewithmask_val
    congr 1
    apply Nat.eq_of_testBit_eq
    intro i
    simp only [Nat.testBit_land, Nat.testBit_xor]
    rcases lt_or_ge i 8 with h8 | h8
    · have h1 : (U32 - 1).testBit i = true := by
        unfold U32
        rw [Nat.testBit_two_pow_sub_one]
        simp
        omega
      have h2 : (255 : Nat).testBit i = true := by
        have h255 : (255 : Nat) = 2 ^ 8 - 1 := by norm_num
        rw [h255, Nat.testBit_two_pow_sub_one]
        simp
        omega
      rw [h1, h2]
    · have hS8 : S.testBit i = false := by
        apply Nat.testBit_lt_two_pow
        calc S < 256 := hS
          _ = 2 ^ 8 := by norm_num
          _ ≤ 2 ^ i := Nat.pow_le_pow_right (by norm_num) h8
      rw [hS8]
      simp
  · intro i hMi
    unfold i2cwritewithmask_val
    simp only [Nat.testBit_lor, Nat.testBit_land, Nat.testBit_xor, hMi]
    rcases lt_or_ge i 32 with h32 | h32
    · have h1 : (U32 - 1).testBit i = true := by
        unfold U32
        rw [Nat.testBit_two_pow_sub_one]
        simp
        omega
      simp [h1]
    · have hS2 : S.testBit i = false := by
        apply Nat.testBit_lt_two_pow
        calc S < 256 := hS
          _ ≤ 2 ^ i := le_trans (by norm_num) (Nat.pow_le_pow_right (by norm_num) h32)
      simp [hS2]

/-- Witness for C5 at V = 3, S = 0xAC, M = 0x1C. -/
theorem masked_write_merge_witness :
    ((0x1C : Nat) ≠ 0 → 2 ^ bits_to_shift 0x1C ∣ 0x1C ∧ ¬ 2 ^ (bits_to_shift 0x1C + 1) ∣ 0x1C) ∧
    i2cwritewithmask_val 3 0xAC 0x1C =
      ((3 <<< bits_to_shift 0x1C) &&& 0x1C) ||| (0xAC &&& (255 ^^^ 0x1C)) ∧
    (∀ i, (0x1C : Nat).testBit i = false →
      (i2cwritewithmask_val 3 0xAC 0x1C).testBit i = (0xAC : Nat).testBit i) :=
  masked_write_merge 3 0xAC 0x1C (by decide) (by decide) (by decide)

/-- Result bytes of the enable/disable merges are always byte-sized. -/
theorem enable_merge_oe_lt (S m : Nat) (b : Bool) : enable_merge_oe S m b < 256 := by
  unfold enable_merge_oe U8
  cases b <;> simp <;> omega

theorem enable_merge_dis_lt (S m : Nat) (b : Bool) : enable_merge_dis S m b < 256 := by
  unfold enable_merge_dis U8
  cases b <;> simp <;> omega

/-- Bits of the shadow bytes at positions other than the targeted output are
unchanged by the enable/disable merges. -/
theorem enable_merge_byte_frame :
    ∀ S, S < 256 → ∀ o, o < 4 → ∀ b : Bool, ∀ k, k < 8 → k ≠ o →
      (enable_merge_oe S (2 ^ o) b).testBit k = S.testBit k ∧
      (enable_merge_dis S (2 ^ o) b).testBit k = S.testBit k := by
  decide

/-- The targeted bit of the shadow byte after the merge reflects the enable
flag. -/
theorem enable_merge_byte_set :
    ∀ S, S < 256 → ∀ o, o < 4 →
      (enable_merge_oe S (2 ^ o) true).testBit o = true ∧
      (enable_merge_oe S (2 ^ o) false).testBit o = false ∧
      (enable_merge_dis S (2 ^ o) false).testBit o = true ∧
      (enable_merge_dis S (2 ^ o) true).testBit o = false := by
  decide

/-- Closed form of idt24x_enable_output for a valid output index: the oe and
dis masks of output o are both 2 ^ o. -/
theorem enable_output_eq (data : clk_idt24x) (o : Nat) (ho : o < 4) (b : Bool) :
    idt24x_enable_output data o b = .ok
      ({ data with regOUTENx := enable_merge_oe data.regOUTENx (2 ^ o) b,
                   regQxDIS := enable_merge_dis data.regQxDIS (2 ^ o) b },
       [(IDT24x_REG_OUTEN, enable_merge_oe data.regOUTENx (2 ^ o) b),
        (IDT24x_REG_Q_DIS, enable_merge_dis data.regQxDIS (2 ^ o) b)]) := by
  interval_cases o <;> rfl

/-- C7: enabling output i and then output j (i ≠ j) leaves the enable bit of
output i set both in the shadow output-enable byte and in the byte written
to hardware by the second call; and for any starting shadow state,
enable_output never changes enable or disable bits belonging to outputs
other than its argument. -/
theorem enable_output_frame (data : clk_idt24x) (i j : Nat)
    (hi : i < 4) (hj : j < 4) (hij : i ≠ j)
    (hOE : data.regOUTENx < 256) (hDIS : data.regQxDIS < 256) :
    (∃ d1 w1 d2 w2,
      idt24x_enable_output data i true = .ok (d1, w1) ∧
      idt24x_enable_output d1 j true = .ok (d2, w2) ∧
      d2.regOUTENx.testBit i = true ∧
      (IDT24x_REG_OUTEN, d2.regOUTENx) ∈ w2) ∧
    (∀ (st d : clk_idt24x) (o : Nat) (b : Bool) (w : List RegWrite),
      st.regOUTENx < 256 → st.regQxDIS < 256 → o < 4 →
      idt24x_enable_output st o b = .ok (d, w) →
      ∀ k, k < 4 → k ≠ o →
        d.regOUTENx.testBit k = st.regOUTENx.testBit k ∧
        d.regQxDIS.testBit k = st.regQxDIS.testBit k) := by
  constructor
  · refine ⟨_, _, _, _, enable_output_eq data i hi true, enable_output_eq _ j hj true, ?_, ?_⟩
    · show (enable_merge_oe (enable_merge_oe data.regOUTENx (2 ^ i) true) (2 ^ j) true).testBit i
        = true
      have hlt1 : enable_merge_oe data.regOUTENx (2 ^ i) true < 256 := enable_merge_oe_lt _ _ _
      have hframe :=
        (enable_merge_byte_frame (enable_merge_oe data.regOUTENx (2 ^ i) true) hlt1 j hj true
          i (by omega) hij).1
      have hset := (enable_merge_byte_set data.regOUTENx hOE i hi).1
      exact hframe.trans hset
    · exact List.mem_cons_self _ _
  · intro st d o b w hOE2 hDIS2 ho heq k hk hko
    rw [enable_output_eq st o ho b] at heq
    injection heq with heq2
    have hd : d = { st with regOUTENx := enable_merge_oe st.regOUTENx (2 ^ o) b,
                            regQxDIS := enable_merge_dis st.regQxDIS (2 ^ o) b } := by
      have := congrArg Prod.fst heq2
      exact this.symm
    subst hd
    exact ⟨(enable_merge_byte_frame st.regOUTENx hOE2 o ho b k (by omega) hko).1,
           (enable_merge_byte_frame st.regQxDIS hDIS2 o ho b k (by omega) hko).2⟩

/-- Witness for C7 at data125 with outputs i = 2, j = 3. -/
theorem enable_output_frame_witness :
    (∃ d1 w1 d2 w2,
      idt24x_enable_output data125 2 true = .ok (d1, w1) ∧
      idt24x_enable_output d1 3 true = .ok (d2, w2) ∧
      d2.regOUTENx.testBit 2 = true ∧
      (IDT24x_REG_OUTEN, d2.regOUTENx) ∈ w2) ∧
    (∀ (st d : clk_idt24x) (o : Nat) (b : Bool) (w : List RegWrite),
      st.regOUTENx < 256 → st.regQxDIS < 256 → o < 4 →
      idt24x_enable_output st o b = .ok (d, w) →
      ∀ k, k < 4 → k ≠ o →
        d.regOUTENx.testBit k = st.regOUTENx.testBit k ∧
        d.regQxDIS.testBit k = st.regQxDIS.testBit k) :=
  enable_output_frame data125 2 3 (by decide) (by decide) (by decide) (by decide) (by decide)

theorem writes_to_append (l1 l2 : List RegWrite) (r : Nat) :
    writes_to (l1 ++ l2) r = writes_to l1 r ++ writes_to l2 r := by
  unfold writes_to
  rw [List.filter_append, List.map_append]

/-- The per-output blocks for Q1-Q3 in idt24x_update_device never write the
Q0 divider registers NS1_Q0, NS2_Q0_15_8, NS2_Q0_7_0. -/
theorem writes_to_update_q_q0regs (data : clk_idt24x) (divs : idt24x_dividers) (x r : Nat)
    (hx : x = 1 ∨ x = 2 ∨ x = 3) (hr : r = 0x3F ∨ r = 0x40 ∨ r = 0x41) :
    writes_to (idt24x_update_q data divs x).2 r = [] := by
  rcases hx with rfl | rfl | rfl <;> rcases hr with rfl | rfl | rfl <;>
    (simp only [idt24x_update_q, idt24x_get_offsets, idt24x_enable_output]
     rw [writes_to_append]
     refine List.append_eq_nil.mpr ⟨?_, ?_⟩
     · split <;> simp [writes_to, IDT24x_REG_DSM_INT_8, IDT24x_REG_DSM_INT_8_MASK, IDT24x_REG_DSM_INT_7_0, IDT24x_REG_DSMFRAC_20_16, IDT24x_REG_DSMFRAC_20_16_MASK, IDT24x_REG_DSMFRAC_15_8, IDT24x_REG_DSMFRAC_7_0, IDT24x_REG_OUTEN, IDT24x_REG_Q_DIS, IDT24x_REG_NS1_Q0, IDT24x_REG_NS1_Q0_MASK, IDT24x_REG_NS2_Q0_15_8, IDT24x_REG_NS2_Q0_7_0, IDT24x_REG_N_Q1_17_16, IDT24x_REG_N_Q1_17_16_MASK, IDT24x_REG_N_Q1_15_8, IDT24x_REG_N_Q1_7_0, IDT24x_REG_NFRAC_Q1_27_24, IDT24x_REG_NFRAC_Q1_27_24_MASK, IDT24x_REG_NFRAC_Q1_23_16, IDT24x_REG_NFRAC_Q1_15_8, IDT24x_REG_NFRAC_Q1_7_0, IDT24x_REG_N_Q2_17_16, IDT24x_REG_N_Q2_17_16_MASK, IDT24x_REG_N_Q2_15_8, IDT24x_REG_N_Q2_7_0, IDT24x_REG_NFRAC_Q2_27_24, IDT24x_REG_NFRAC_Q2_27_24_MASK, IDT24x_REG_NFRAC_Q2_23_16, IDT24x_REG_NFRAC_Q2_15_8, IDT24x_REG_NFRAC_Q2_7_0, IDT24x_REG_N_Q3_17_16, IDT24x_REG_N_Q3_17_16_MASK, IDT24x_REG_N_Q3_15_8, IDT24x_REG_N_Q3_7_0, IDT24x_REG_NFRAC_Q3_27_24, IDT24x_REG_NFRAC_Q3_27_24_MASK, IDT24x_REG_NFRAC_Q3_23_16, IDT24x_REG_NFRAC_Q3_15_8, IDT24x_REG_NFRAC_Q3_7_0, IDT24x_REG_OUTEN0_MASK, IDT24x_REG_OUTEN1_MASK, IDT24x_REG_OUTEN2_MASK, IDT24x_REG_OUTEN3_MASK, IDT24x_REG_Q0_DIS_MASK, IDT24x_REG_Q1_DIS_MASK, IDT24x_REG_Q2_DIS_MASK, IDT24x_REG_Q3_DIS_MASK]
     · simp [writes_to, IDT24x_REG_DSM_INT_8, IDT24x_REG_DSM_INT_8_MASK, IDT24x_REG_DSM_INT_7_0, IDT24x_REG_DSMFRAC_20_16, IDT24x_REG_DSMFRAC_20_16_MASK, IDT24x_REG_DSMFRAC_15_8, IDT24x_REG_DSMFRAC_7_0, IDT24x_REG_OUTEN, IDT24x_REG_Q_DIS, IDT24x_REG_NS1_Q0, IDT24x_REG_NS1_Q0_MASK, IDT24x_REG_NS2_Q0_15_8, IDT24x_REG_NS2_Q0_7_0, IDT24x_REG_N_Q1_17_16, IDT24x_REG_N_Q1_17_16_MASK, IDT24x_REG_N_Q1_15_8, IDT24x_REG_N_Q1_7_0, IDT24x_REG_NFRAC_Q1_27_24, IDT24x_REG_NFRAC_Q1_27_24_MASK, IDT24x_REG_NFRAC_Q1_23_16, IDT24x_REG_NFRAC_Q1_15_8, IDT24x_REG_NFRAC_Q1_7_0, IDT24x_REG_N_Q2_17_16, IDT24x_REG_N_Q2_17_16_MASK, IDT24x_REG_N_Q2_15_8, IDT24x_REG_N_Q2_7_0, IDT24x_REG_NFRAC_Q2_27_24, IDT24x_REG_NFRAC_Q2_27_24_MASK, IDT24x_REG_NFRAC_Q2_23_16, IDT24x_REG_NFRAC_Q2_15_8, IDT24x_REG_NFRAC_Q2_7_0, IDT24x_REG_N_Q3_17_16, IDT24x_REG_N_Q3_17_16_MASK, IDT24x_REG_N_Q3_15_8, IDT24x_REG_N_Q3_7_0, IDT24x_REG_NFRAC_Q3_27_24, IDT24x_REG_NFRAC_Q3_27_24_MASK, IDT24x_REG_NFRAC_Q3_23_16, IDT24x_REG_NFRAC_Q3_15_8, IDT24x_REG_NFRAC_Q3_7_0, IDT24x_REG_OUTEN0_MASK, IDT24x_REG_OUTEN1_MASK, IDT24x_REG_OUTEN2_MASK, IDT24x_REG_OUTEN3_MASK, IDT24x_REG_Q0_DIS_MASK, IDT24x_REG_Q1_DIS_MASK, IDT24x_REG_Q2_DIS_MASK, IDT24x_REG_Q3_DIS_MASK])

/-- Values written by idt24x_update_device to the three Q0 divider
registers, for any driver state and dividers. -/
theorem update_device_writes_q0 (data : clk_idt24x) (divs : idt24x_dividers) :
    writes_to (idt24x_update_device data divs).2 IDT24x_REG_NS1_Q0 =
      [i2cwritewithmask_val ((divs.ns1_q0 >>> 8) &&& IDT24x_REG_NS1_Q0_MASK)
        data.regNS1_Q0 IDT24x_REG_NS1_Q0_MASK] ∧
    writes_to (idt24x_update_device data divs).2 IDT24x_REG_NS2_Q0_15_8 =
      [(divs.ns2_q0 >>> 8) &&& 0xFF] ∧
    writes_to (idt24x_update_device data divs).2 IDT24x_REG_NS2_Q0_7_0 =
      [divs.ns2_q0 &&& 0xFF] := by
  refine ⟨?_, ?_, ?_⟩ <;>
    (simp only [idt24x_update_device, idt24x_enable_output, idt24x_get_offsets,
       writes_to_append]
     rw [writes_to_update_q_q0regs _ _ 1 _ (by tauto) (by simp [IDT24x_REG_DSM_INT_8, IDT24x_REG_DSM_INT_8_MASK, IDT24x_REG_DSM_INT_7_0, IDT24x_REG_DSMFRAC_20_16, IDT24x_REG_DSMFRAC_20_16_MASK, IDT24x_REG_DSMFRAC_15_8, IDT24x_REG_DSMFRAC_7_0, IDT24x_REG_OUTEN, IDT24x_REG_Q_DIS, IDT24x_REG_NS1_Q0, IDT24x_REG_NS1_Q0_MASK, IDT24x_REG_NS2_Q0_15_8, IDT24x_REG_NS2_Q0_7_0, IDT24x_REG_N_Q1_17_16, IDT24x_REG_N_Q1_17_16_MASK, IDT24x_REG_N_Q1_15_8, IDT24x_REG_N_Q1_7_0, IDT24x_REG_NFRAC_Q1_27_24, IDT24x_REG_NFRAC_Q1_27_24_MASK, IDT24x_REG_NFRAC_Q1_23_16, IDT24x_REG_NFRAC_Q1_15_8, IDT24x_REG_NFRAC_Q1_7_0, IDT24x_REG_N_Q2_17_16, IDT24x_REG_N_Q2_17_16_MASK, IDT24x_REG_N_Q2_15_8, IDT24x_REG_N_Q2_7_0, IDT24x_REG_NFRAC_Q2_27_24, IDT24x_REG_NFRAC_Q2_27_24_MASK, IDT24x_REG_NFRAC_Q2_23_16, IDT24x_REG_NFRAC_Q2_15_8, IDT24x_REG_NFRAC_Q2_7_0, IDT24x_REG_N_Q3_17_16, IDT24x_REG_N_Q3_17_16_MASK, IDT24x_REG_N_Q3_15_8, IDT24x_REG_N_Q3_7_0, IDT24x_REG_NFRAC_Q3_27_24, IDT24x_REG_NFRAC_Q3_27_24_MASK, IDT24x_REG_NFRAC_Q3_23_16, IDT24x_REG_NFRAC_Q3_15_8, IDT24x_REG_NFRAC_Q3_7_0, IDT24x_REG_OUTEN0_MASK, IDT24x_REG_OUTEN1_MASK, IDT24x_REG_OUTEN2_MASK, IDT24x_REG_OUTEN3_MASK, IDT24x_REG_Q0_DIS_MASK, IDT24x_REG_Q1_DIS_MASK, IDT24x_REG_Q2_DIS_MASK, IDT24x_REG_Q3_DIS_MASK]),
       writes_to_update_q_q0regs _ _ 2 _ (by tauto) (by simp [IDT24x_REG_DSM_INT_8, IDT24x_REG_DSM_INT_8_MASK, IDT24x_REG_DSM_INT_7_0, IDT24x_REG_DSMFRAC_20_16, IDT24x_REG_DSMFRAC_20_16_MASK, IDT24x_REG_DSMFRAC_15_8, IDT24x_REG_DSMFRAC_7_0, IDT24x_REG_OUTEN, IDT24x_REG_Q_DIS, IDT24x_REG_NS1_Q0, IDT24x_REG_NS1_Q0_MASK, IDT24x_REG_NS2_Q0_15_8, IDT24x_REG_NS2_Q0_7_0, IDT24x_REG_N_Q1_17_16, IDT24x_REG_N_Q1_17_16_MASK, IDT24x_REG_N_Q1_15_8, IDT24x_REG_N_Q1_7_0, IDT24x_REG_NFRAC_Q1_27_24, IDT24x_REG_NFRAC_Q1_27_24_MASK, IDT24x_REG_NFRAC_Q1_23_16, IDT24x_REG_NFRAC_Q1_15_8, IDT24x_REG_NFRAC_Q1_7_0, IDT24x_REG_N_Q2_17_16, IDT24x_REG_N_Q2_17_16_MASK, IDT24x_REG_N_Q2_15_8, IDT24x_REG_N_Q2_7_0, IDT24x_REG_NFRAC_Q2_27_24, IDT24x_REG_NFRAC_Q2_27_24_MASK, IDT24x_REG_NFRAC_Q2_23_16, IDT24x_REG_NFRAC_Q2_15_8, IDT24x_REG_NFRAC_Q2_7_0, IDT24x_REG_N_Q3_17_16, IDT24x_REG_N_Q3_17_16_MASK, IDT24x_REG_N_Q3_15_8, IDT24x_REG_N_Q3_7_0, IDT24x_REG_NFRAC_Q3_27_24, IDT24x_REG_NFRAC_Q3_27_24_MASK, IDT24x_REG_NFRAC_Q3_23_16, IDT24x_REG_NFRAC_Q3_15_8, IDT24x_REG_NFRAC_Q3_7_0, IDT24x_REG_OUTEN0_MASK, IDT24x_REG_OUTEN1_MASK, IDT24x_REG_OUTEN2_MASK, IDT24x_REG_OUTEN3_MASK, IDT24x_REG_Q0_DIS_MASK, IDT24x_REG_Q1_DIS_MASK, IDT24x_REG_Q2_DIS_MASK, IDT24x_REG_Q3_DIS_MASK]),
       writes_to_update_q_q0regs _ _ 3 _ (by tauto) (by simp [IDT24x_REG_DSM_INT_8, IDT24x_REG_DSM_INT_8_MASK, IDT24x_REG_DSM_INT_7_0, IDT24x_REG_DSMFRAC_20_16, IDT24x_REG_DSMFRAC_20_16_MASK, IDT24x_REG_DSMFRAC_15_8, IDT24x_REG_DSMFRAC_7_0, IDT24x_REG_OUTEN, IDT24x_REG_Q_DIS, IDT24x_REG_NS1_Q0, IDT24x_REG_NS1_Q0_MASK, IDT24x_REG_NS2_Q0_15_8, IDT24x_REG_NS2_Q0_7_0, IDT24x_REG_N_Q1_17_16, IDT24x_REG_N_Q1_17_16_MASK, IDT24x_REG_N_Q1_15_8, IDT24x_REG_N_Q1_7_0, IDT24x_REG_NFRAC_Q1_27_24, IDT24x_REG_NFRAC_Q1_27_24_MASK, IDT24x_REG_NFRAC_Q1_23_16, IDT24x_REG_NFRAC_Q1_15_8, IDT24x_REG_NFRAC_Q1_7_0, IDT24x_REG_N_Q2_17_16, IDT24x_REG_N_Q2_17_16_MASK, IDT24x_REG_N_Q2_15_8, IDT24x_REG_N_Q2_7_0, IDT24x_REG_NFRAC_Q2_27_24, IDT24x_REG_NFRAC_Q2_27_24_MASK, IDT24x_REG_NFRAC_Q2_23_16, IDT24x_REG_NFRAC_Q2_15_8, IDT24x_REG_NFRAC_Q2_7_0, IDT24x_REG_N_Q3_17_16, IDT24x_REG_N_Q3_17_16_MASK, IDT24x_REG_N_Q3_15_8, IDT24x_REG_N_Q3_7_0, IDT24x_REG_NFRAC_Q3_27_24, IDT24x_REG_NFRAC_Q3_27_24_MASK, IDT24x_REG_NFRAC_Q3_23_16, IDT24x_REG_NFRAC_Q3_15_8, IDT24x_REG_NFRAC_Q3_7_0, IDT24x_REG_OUTEN0_MASK, IDT24x_REG_OUTEN1_MASK, IDT24x_REG_OUTEN2_MASK, IDT24x_REG_OUTEN3_MASK, IDT24x_REG_Q0_DIS_MASK, IDT24x_REG_Q1_DIS_MASK, IDT24x_REG_Q2_DIS_MASK, IDT24x_REG_Q3_DIS_MASK])]
     simp [writes_to, IDT24x_REG_DSM_INT_8, IDT24x_REG_DSM_INT_8_MASK, IDT24x_REG_DSM_INT_7_0, IDT24x_REG_DSMFRAC_20_16, IDT24x_REG_DSMFRAC_20_16_MASK, IDT24x_REG_DSMFRAC_15_8, IDT24x_REG_DSMFRAC_7_0, IDT24x_REG_OUTEN, IDT24x_REG_Q_DIS, IDT24x_REG_NS1_Q0, IDT24x_REG_NS1_Q0_MASK, IDT24x_REG_NS2_Q0_15_8, IDT24x_REG_NS2_Q0_7_0, IDT24x_REG_N_Q1_17_16, IDT24x_REG_N_Q1_17_16_MASK, IDT24x_REG_N_Q1_15_8, IDT24x_REG_N_Q1_7_0, IDT24x_REG_NFRAC_Q1_27_24, IDT24x_REG_NFRAC_Q1_27_24_MASK, IDT24x_REG_NFRAC_Q1_23_16, IDT24x_REG_NFRAC_Q1_15_8, IDT24x_REG_NFRAC_Q1_7_0, IDT24x_REG_N_Q2_17_16, IDT24x_REG_N_Q2_17_16_MASK, IDT24x_REG_N_Q2_15_8, IDT24x_REG_N_Q2_7_0, IDT24x_REG_NFRAC_Q2_27_24, IDT24x_REG_NFRAC_Q2_27_24_MASK, IDT24x_REG_NFRAC_Q2_23_16, IDT24x_REG_NFRAC_Q2_15_8, IDT24x_REG_NFRAC_Q2_7_0, IDT24x_REG_N_Q3_17_16, IDT24x_REG_N_Q3_17_16_MASK, IDT24x_REG_N_Q3_15_8, IDT24x_REG_N_Q3_7_0, IDT24x_REG_NFRAC_Q3_27_24, IDT24x_REG_NFRAC_Q3_27_24_MASK, IDT24x_REG_NFRAC_Q3_23_16, IDT24x_REG_NFRAC_Q3_15_8, IDT24x_REG_NFRAC_Q3_7_0, IDT24x_REG_OUTEN0_MASK, IDT24x_REG_OUTEN1_MASK, IDT24x_REG_OUTEN2_MASK, IDT24x_REG_OUTEN3_MASK, IDT24x_REG_Q0_DIS_MASK, IDT24x_REG_Q1_DIS_MASK, IDT24x_REG_Q2_DIS_MASK, IDT24x_REG_Q3_DIS_MASK])

/-- Driver state like data125 but with distinct shadow bytes for the
DSM_INT_8 and DSMFRAC_20_16 registers, to expose which shadow the
DSMFRAC_20_16 masked write merges with. -/
def dataC6 : clk_idt24x :=
  { data125 with regDSM_INT_8 := 0x60, regDSMFRAC_20_16 := 0x80 }

/-- C6: the DSMFRAC_20_16 masked write of idt24x_update_device merges the
new field bits with the cached byte of a different register (regDSM_INT_8,
register 0x25) instead of the cached byte of the register being written
(regDSMFRAC_20_16, register 0x28): with regDSM_INT_8 = 0x60 and
regDSMFRAC_20_16 = 0x80 the byte actually written to register 0x28 is 0x60,
while the read-modify-write through the correct shadow mandated by the
driver's own shadow-register comments would write 0x80. -/
theorem update_device_dsmfrac_wrong_shadow :
    idt24x_calc_divs dataC6 divs_zero = .ok divs125 ∧
    writes_to (idt24x_update_device dataC6 divs125).2 IDT24x_REG_DSMFRAC_20_16 = [0x60] ∧
    i2cwritewithmask_val ((divs125.dsmfrac >>> 16) &&& IDT24x_REG_DSMFRAC_20_16_MASK)
      dataC6.regDSMFRAC_20_16 IDT24x_REG_DSMFRAC_20_16_MASK = 0x80 ∧
    (0x60 : Nat) ≠ 0x80 :=
  ⟨by rfl, by rfl, by rfl, by decide⟩

/-- Driver state like data125 but also requesting a nonzero frequency
(1 MHz) on the unimplemented output Q0. -/
def dataC8 : clk_idt24x :=
  { data125 with frequencies0 := 1000000 }

/-- Counterexample to C8: with a nonzero frequency requested on the
unimplemented channel Q0 (and a valid Q2 request), idt24x_calc_divs does not
return a not-implemented error; it only logs and proceeds, returning
success. -/
theorem calc_divs_not_implemented_counterexample :
    dataC8.frequencies0 = 1000000 ∧
    idt24x_calc_divs dataC8 divs_zero = .ok divs125 ∧
    ∀ e : Int, idt24x_calc_divs dataC8 divs_zero ≠ .error e := by
  refine ⟨rfl, by rfl, ?_⟩
  intro e h
  rw [show idt24x_calc_divs dataC8 divs_zero = Except.ok divs125 from by rfl] at h
  simp at h

/-- C8 amended: a nonzero frequency requested for channels 0, 1 or 3 does
not produce a not-implemented error; it is only logged (dev_err) and the
computation proceeds: the result of idt24x_calc_divs is independent of the
frequencies requested on channels 0, 1 and 3. -/
theorem calc_divs_ignores_other_channels (data : clk_idt24x) (divs0 : idt24x_dividers)
    (f0 f1 f3 : Nat) :
    idt24x_calc_divs
      { data with frequencies0 := f0, frequencies1 := f1, frequencies3 := f3 } divs0 =
    idt24x_calc_divs data divs0 := rfl

/-- Counterexample to C9: requesting 0 Hz through idt24x_set_rate does not
succeed; the rate is below min_freq (1 MHz), so the entry point returns
-EINVAL before disabling anything. -/
theorem set_rate_zero_counterexample :
    data125.min_freq = 1000000 ∧
    idt24x_set_rate data125 divs_zero 0 = .error (-EINVAL) :=
  ⟨rfl, by rfl⟩

/-- C9 amended: requesting 0 Hz through the exposed set-rate entry point is
rejected with -EINVAL whenever min_freq is positive (the driver sets it to
1 MHz); the disable-on-zero behaviour lives one level down in
idt24x_set_frequency, which, when the stored Q2 frequency is zero, only
disables output 2 and performs no divider computation. -/
theorem set_rate_zero_amended :
    (∀ (data : clk_idt24x) (divs0 : idt24x_dividers), 0 < data.min_freq →
      idt24x_set_rate data divs0 0 = .error (-EINVAL)) ∧
    (∀ (data : clk_idt24x) (divs0 : idt24x_dividers), data.frequencies2 = 0 →
      ∃ d w, idt24x_set_frequency data divs0 = .ok (d, w) ∧
        idt24x_enable_output data 2 false = .ok (d, w)) := by
  constructor
  · intro data divs0 hmin
    unfold idt24x_set_rate
    rw [if_pos (Or.inl hmin)]
  · intro data divs0 hzero
    have he := enable_output_eq data 2 (by omega) false
    unfold idt24x_set_frequency
    rw [if_pos hzero, he]
    exact ⟨_, _, rfl, he⟩

/-- Driver state with no frequency requested on Q2. -/
def dataFreq0 : clk_idt24x :=
  { data125 with frequencies2 := 0 }

/-- Witness for the amended C9 at data125 (rate 0) and dataFreq0. -/
theorem set_rate_zero_amended_witness :
    idt24x_set_rate data125 divs_zero 0 = .error (-EINVAL) ∧
    (∃ d w, idt24x_set_frequency dataFreq0 divs_zero = .ok (d, w) ∧
      idt24x_enable_output dataFreq0 2 false = .ok (d, w)) :=
  ⟨set_rate_zero_amended.1 data125 divs_zero (by decide),
   set_rate_zero_amended.2 dataFreq0 divs_zero (by rfl)⟩

theorem land_notmask_mask (S : Nat) : S &&& ((U32 - 1) ^^^ 3) &&& 3 = 0 := by
  apply Nat.eq_of_testBit_eq
  intro i
  have h3 : (3 : Nat) = 2 ^ 2 - 1 := by norm_num
  unfold U32
  simp only [Nat.testBit_land, Nat.testBit_xor, Nat.zero_testBit, h3,
    Nat.testBit_two_pow_sub_one]
  rcases Nat.lt_or_ge i 2 with h | h
  · rw [decide_eq_true h, decide_eq_true (show i < 32 by omega)]
    simp
  · rw [decide_eq_false (show ¬ i < 2 by omega)]
    simp

/-- Byte written by the NS1_Q0 masked write when the ns1_q0 divider is zero:
its NS1_Q0 field bits (mask 0x03) are zero. -/
theorem ns1_field_zero (S : Nat) :
    i2cwritewithmask_val (((0 : Nat) >>> 8) &&& IDT24x_REG_NS1_Q0_MASK) S
      IDT24x_REG_NS1_Q0_MASK &&& IDT24x_REG_NS1_Q0_MASK = 0 := by
  unfold i2cwritewithmask_val IDT24x_REG_NS1_Q0_MASK
  rw [Nat.zero_shiftRight, Nat.zero_and, Nat.zero_shiftLeft, Nat.zero_and, Nat.zero_or]
  exact land_notmask_mask S

/-- C10: every successful divider calculation leaves the Q0 two-stage
divider fields at zero (ns1_q0 = 0 and ns2_q0 = 0), and consequently every
apply writes 0 into both NS2_Q0 registers and zero field bits into NS1_Q0,
whatever output 0's previous configuration was. -/
theorem q0_divider_fields_zero (data data2 : clk_idt24x) (divs0 divs : idt24x_dividers)
    (h : idt24x_calc_divs data divs0 = .ok divs) :
    divs.ns1_q0 = 0 ∧ divs.ns2_q0 = 0 ∧
    writes_to (idt24x_update_device data2 divs).2 IDT24x_REG_NS2_Q0_15_8 = [0] ∧
    writes_to (idt24x_update_device data2 divs).2 IDT24x_REG_NS2_Q0_7_0 = [0] ∧
    ∃ v, writes_to (idt24x_update_device data2 divs).2 IDT24x_REG_NS1_Q0 = [v] ∧
      v &&& IDT24x_REG_NS1_Q0_MASK = 0 := by
  have hzero : divs.ns1_q0 = 0 ∧ divs.ns2_q0 = 0 := by
    simp only [idt24x_calc_divs] at h
    split at h
    · simp at h
    · split at h
      · injection h with h2
        subst h2
        exact ⟨rfl, rfl⟩
      · simp at h
  obtain ⟨h1, h2⟩ := hzero
  obtain ⟨hw1, hw2, hw3⟩ := update_device_writes_q0 data2 divs
  refine ⟨h1, h2, ?_, ?_, ?_⟩
  · rw [hw2, h2]
    norm_num
  · rw [hw3, h2]
    norm_num
  · refine ⟨_, hw1, ?_⟩
    rw [h1]
    exact ns1_field_zero data2.regNS1_Q0

/-- Witness for C10 at the 125 MHz request of data125. -/
theorem q0_divider_fields_zero_witness :
    divs125.ns1_q0 = 0 ∧ divs125.ns2_q0 = 0 ∧
    writes_to (idt24x_update_device data125 divs125).2 IDT24x_REG_NS2_Q0_15_8 = [0] ∧
    writes_to (idt24x_update_device data125 divs125).2 IDT24x_REG_NS2_Q0_7_0 = [0] ∧
    ∃ v, writes_to (idt24x_update_device data125 divs125).2 IDT24x_REG_NS1_Q0 = [v] ∧
      v &&& IDT24x_REG_NS1_Q0_MASK = 0 :=
  q0_divider_fields_zero data125 data125 divs_zero divs125 (by rfl)

end ClkIdt24x
